import Mathlib

/-!
Shallow embedding of the Royal Shisha Bar admin-console logic:
the two table-status derivations (`processTableData` from
`SimpleLiveTableGrid.tsx` and `calculateTableStatuses` / `calculateStats`
from the simpler grid variant), the order-management action guards
(`updateOrderStatus`, `deleteOrder`, `verifyLoyaltyDiscount`,
`canDeleteOrder`), and the bar-operations categorization step
(`processOrdersWithMenuItems` with its fingerprint guard).

Money amounts and timestamps are modelled as natural numbers
(integral euros and epoch milliseconds).  JavaScript `undefined` /
missing record fields are modelled with `Option`.
-/

namespace Royal

inductive OrderStatus
  | pending | confirmed | preparing | ready | delivered | cancelled
  deriving DecidableEq, Repr

inductive PaymentStatus
  | unpaid
  | partlyPaid   -- the source's "partial" payment status
  | paid
  deriving DecidableEq, Repr

structure Payment where
  status : PaymentStatus
  amount : Nat
  deriving DecidableEq, Repr

structure CartItem where
  menuItemId : String
  quantity : Nat
  price : Nat
  deriving DecidableEq, Repr

structure LoyaltyDiscount where
  amount : Nat
  isVerified : Bool
  deriving DecidableEq, Repr

structure Order where
  id : String
  tableNumber : Nat
  items : List CartItem
  totalAmount : Nat
  status : OrderStatus
  payment : Option Payment
  loyaltyDiscount : Option LoyaltyDiscount
  createdAt : Nat
  updatedAt : Nat
  deriving DecidableEq, Repr

structure Table where
  id : String
  number : Nat
  capacity : Nat
  location : String
  deriving DecidableEq, Repr

/-- A reservation record as consumed by the grid: the caller fetches only
`seated` reservations for the current day, so the list passed to the
derivation is already restricted to those. -/
structure Reservation where
  id : String
  tableNumber : Nat
  deriving DecidableEq, Repr

inductive TableStatusType
  | available | seated | active_order | open_bill
  deriving DecidableEq, Repr

structure TableStatus where
  table : Table
  hasActiveOrder : Bool
  orderAmount : Option Nat
  isOpenBill : Bool
  isSeated : Bool
  statusType : TableStatusType
  deriving DecidableEq, Repr

structure GridStats where
  totalTables : Nat
  available : Nat
  occupied : Nat
  openBills : Nat
  totalRevenue : Nat
  deriving DecidableEq, Repr

/-- `o.payment?.status !== "paid"` — an order with no payment record counts
as not paid. -/
def Order.notPaid (o : Order) : Bool :=
  match o.payment with
  | some p => p.status != PaymentStatus.paid
  | none => true

/-- `o.payment?.status === "paid"`. -/
def Order.isPaid (o : Order) : Bool :=
  match o.payment with
  | some p => p.status == PaymentStatus.paid
  | none => false

/-- `o.payment?.amount ?? o.totalAmount` — the fallback bill amount. -/
def Order.billAmount (o : Order) : Nat :=
  match o.payment with
  | some p => p.amount
  | none => o.totalAmount

/-! ## `processTableData` (SimpleLiveTableGrid.tsx, lines 262–342)

The orders-by-table `Map` groups orders preserving their relative order, so
the group for a table equals `orders.filter` on its number. -/

def tableOrdersFor (orders : List Order) (n : Nat) : List Order :=
  orders.filter (fun o => o.tableNumber == n)

/-- The status priority cascade shared by both variants: `open_bill`, then
`active_order`, then `seated`, else `available`. -/
def statusOf (isOpenBill hasActiveOrder isSeated : Bool) : TableStatusType :=
  if isOpenBill then TableStatusType.open_bill
  else if hasActiveOrder then TableStatusType.active_order
  else if isSeated then TableStatusType.seated
  else TableStatusType.available

/-- The per-table body of `processTableData`'s `tables.map`. -/
def processTableStatus (orders : List Order) (reservations : List Reservation)
    (table : Table) : TableStatus :=
  let tableOrders := tableOrdersFor orders table.number
  let hasActiveOrder := tableOrders.any (fun o =>
    o.status != OrderStatus.cancelled && o.status != OrderStatus.delivered)
  let isOpenBill := tableOrders.any Order.notPaid
  let unpaidAmount :=
    (tableOrders.filter Order.notPaid).foldl (fun s o => s + o.billAmount) 0
  let isSeated := reservations.any (fun r => r.tableNumber == table.number)
  let statusType := statusOf isOpenBill hasActiveOrder isSeated
  { table := table
    hasActiveOrder := hasActiveOrder
    orderAmount := if unpaidAmount > 0 then some unpaidAmount else none
    isOpenBill := isOpenBill
    isSeated := isSeated
    statusType := statusType }

def processTableData (tables : List Table) (orders : List Order)
    (reservations : List Reservation) : List TableStatus × GridStats :=
  let tableStatuses := tables.map (processTableStatus orders reservations)
  let totalTables := tables.length
  let available := (tableStatuses.filter
    (fun t => t.statusType == TableStatusType.available)).length
  let occupied := totalTables - available
  let openBills := (tableStatuses.filter
    (fun t => t.statusType == TableStatusType.open_bill)).length
  let totalRevenue :=
    (orders.filter Order.isPaid).foldl (fun s o => s + o.billAmount) 0
  (tableStatuses,
    { totalTables := totalTables, available := available, occupied := occupied,
      openBills := openBills, totalRevenue := totalRevenue })

/-! ## `calculateTableStatuses` / `calculateStats` (simpler grid variant)

The simpler variant reads the wall clock (`Date.now()`); the embedding makes
that clock an explicit `now` argument. -/

def deliveredAndPaid (o : Order) : Bool :=
  o.status == OrderStatus.delivered && o.isPaid

def paymentUnpaidOrPartly (o : Order) : Bool :=
  match o.payment with
  | some p => p.status == PaymentStatus.unpaid || p.status == PaymentStatus.partlyPaid
  | none => false

/-- The filter over `orders` inside the simpler variant's per-table body:
delivered+paid orders free the table, `ready` orders are not included, and
delivered orders stay while unpaid/partly paid. -/
def simpleTableOrders (orders : List Order) (n : Nat) : List Order :=
  orders.filter (fun o =>
    o.tableNumber == n && !(deliveredAndPaid o) &&
      (o.status == OrderStatus.pending || o.status == OrderStatus.confirmed ||
        o.status == OrderStatus.preparing || o.status == OrderStatus.delivered))

/-- First element of `.sort((a, b) => b.createdAt - a.createdAt)` — the
earliest-listed order with maximal `createdAt` (stable descending sort). -/
def latestOrder : List Order → Option Order
  | [] => none
  | o :: rest =>
    match latestOrder rest with
    | none => some o
    | some m => if m.createdAt > o.createdAt then some m else some o

/-- The per-table body of `calculateTableStatuses`'s `tables.map`. -/
def simpleTableStatus (now : Nat) (orders : List Order) (table : Table) :
    TableStatus :=
  let tableOrders := simpleTableOrders orders table.number
  let activeOrder := latestOrder tableOrders
  let isOpenBill :=
    match activeOrder with
    | some o => o.status == OrderStatus.delivered && paymentUnpaidOrPartly o
    | none => false
  let hasActiveOrder := activeOrder.isSome && !isOpenBill
  let recentPaid := orders.filter (fun o =>
    o.tableNumber == table.number && o.status == OrderStatus.delivered &&
      o.isPaid && now - o.createdAt < 7200000)
  let isSeated := !hasActiveOrder && !isOpenBill && !recentPaid.isEmpty
  let statusType := statusOf isOpenBill hasActiveOrder isSeated
  { table := table
    hasActiveOrder := hasActiveOrder
    orderAmount := activeOrder.map Order.totalAmount
    isOpenBill := isOpenBill
    isSeated := isSeated
    statusType := statusType }

def calculateTableStatuses (now : Nat) (tables : List Table)
    (orders : List Order) : List TableStatus :=
  tables.map (simpleTableStatus now orders)

structure SimpleStats where
  totalTables : Nat
  occupied : Nat
  available : Nat
  openBills : Nat
  totalRevenue : Nat
  deriving DecidableEq, Repr

def calculateStats (statuses : List TableStatus) : SimpleStats :=
  { totalTables := statuses.length
    occupied := (statuses.filter (fun s => s.hasActiveOrder || s.isSeated)).length
    available := statuses.length -
      (statuses.filter (fun s => s.hasActiveOrder || s.isSeated)).length
    openBills := (statuses.filter (fun s => s.isOpenBill)).length
    totalRevenue := statuses.foldl (fun sum s => sum + s.orderAmount.getD 0) 0 }

/-! ## Order lifecycle manager (OrderManagement.tsx)

`updateOrderStatus`, `deleteOrder` and `verifyLoyaltyDiscount` are modelled
as state transformers over the admin view's state plus the backing store.
External inputs (the two `window.confirm` answers, success of the store
call) are explicit Boolean parameters.  The component is modelled as
mounted throughout. -/

structure OrderStatsData where
  pendingOrders : Nat
  confirmedOrders : Nat
  preparingOrders : Nat
  readyOrders : Nat
  deliveredOrders : Nat
  cancelledOrders : Nat
  deriving DecidableEq, Repr

/-- Modelled from the spec: `OrderService.getOrderStats` is not among the
sources; per the spec, `OrderStats` holds "counts per status bucket ...
recomputed from the current Order set, never stored". -/
def computeStats (orders : List Order) : OrderStatsData :=
  { pendingOrders := (orders.filter (fun o => o.status == OrderStatus.pending)).length
    confirmedOrders := (orders.filter (fun o => o.status == OrderStatus.confirmed)).length
    preparingOrders := (orders.filter (fun o => o.status == OrderStatus.preparing)).length
    readyOrders := (orders.filter (fun o => o.status == OrderStatus.ready)).length
    deliveredOrders := (orders.filter (fun o => o.status == OrderStatus.delivered)).length
    cancelledOrders := (orders.filter (fun o => o.status == OrderStatus.cancelled)).length }

structure AdminState where
  isUpdating : Bool
  orders : List Order
  stats : OrderStatsData
  store : List Order
  deriving DecidableEq, Repr

/-- Result of one admin action: the state afterwards, whether the backing
store was called, and whether a user-visible error toast was raised. -/
structure ActionResult where
  state : AdminState
  storeCalled : Bool
  errorShown : Bool
  deriving DecidableEq, Repr

/-- Only pending orders can be deleted (OrderManagement.tsx line 78). -/
def canDeleteOrder (o : Order) : Bool :=
  o.status == OrderStatus.pending

/-- Modelled from the spec: `OrderService.updateOrderStatus` is not among
the sources; it writes the new status for the given order id to the store. -/
def storeUpdateStatus (store : List Order) (orderId : String)
    (newStatus : OrderStatus) : List Order :=
  store.map (fun o => if o.id == orderId then { o with status := newStatus } else o)

/-- Modelled from the spec: `OrderService.deleteOrder` is not among the
sources; it removes the given order id from the store. -/
def storeDelete (store : List Order) (orderId : String) : List Order :=
  store.filter (fun o => o.id != orderId)

/-- Modelled from the spec: `OrderService.verifyLoyaltyDiscount` is not
among the sources; it is a one-way confirmation `isVerified: false → true`
on the embedded loyalty discount record. -/
def storeVerifyLoyalty (store : List Order) (orderId : String) : List Order :=
  store.map (fun o =>
    if o.id == orderId then
      { o with loyaltyDiscount := o.loyaltyDiscount.map (fun d => { d with isVerified := true }) }
    else o)

/-- After a successful write, the view reloads orders and stats from the
store (`Promise.allSettled([loadOrders(), loadStats()])`). -/
def reloadedState (store : List Order) : AdminState :=
  { isUpdating := false, orders := store, stats := computeStats store, store := store }

/-- `updateOrderStatus` (OrderManagement.tsx lines 193–225). -/
def updateOrderStatus (s : AdminState) (orderId : String)
    (newStatus : OrderStatus) (storeOk : Bool) : ActionResult :=
  if s.isUpdating then
    { state := s, storeCalled := false, errorShown := true }
  else if storeOk then
    { state := reloadedState (storeUpdateStatus s.store orderId newStatus)
      storeCalled := true, errorShown := false }
  else
    { state := { s with isUpdating := false }, storeCalled := true, errorShown := true }

/-- `deleteOrder` (OrderManagement.tsx lines 228–277): look the order up,
reject non-pending orders, ask for confirmation, reject while busy, ask
again, then call the store. -/
def deleteOrder (s : AdminState) (orderId : String)
    (confirmFirst confirmSecond : Bool) (storeOk : Bool) : ActionResult :=
  match s.orders.find? (fun o => o.id == orderId) with
  | none => { state := s, storeCalled := false, errorShown := false }
  | some order =>
    if !canDeleteOrder order then
      { state := s, storeCalled := false, errorShown := true }
    else if !confirmFirst then
      { state := s, storeCalled := false, errorShown := false }
    else if s.isUpdating then
      { state := s, storeCalled := false, errorShown := true }
    else if !confirmSecond then
      { state := s, storeCalled := false, errorShown := false }
    else if storeOk then
      { state := reloadedState (storeDelete s.store orderId)
        storeCalled := true, errorShown := false }
    else
      { state := { s with isUpdating := false }, storeCalled := true, errorShown := true }

/-- `verifyLoyaltyDiscount` (OrderManagement.tsx lines 280–312). -/
def verifyLoyaltyDiscount (s : AdminState) (orderId : String)
    (storeOk : Bool) : ActionResult :=
  if s.isUpdating then
    { state := s, storeCalled := false, errorShown := true }
  else if storeOk then
    { state := reloadedState (storeVerifyLoyalty s.store orderId)
      storeCalled := true, errorShown := false }
  else
    { state := { s with isUpdating := false }, storeCalled := true, errorShown := true }

/-! ## Bar operations (`processOrdersWithMenuItems`, `CATEGORIES`) -/

structure MenuItem where
  id : String
  name : String
  category : String
  price : Nat
  deriving DecidableEq, Repr

/-- `CATEGORIES.DRINKS`. -/
def DRINKS_CATEGORIES : List String := ["drinks", "beverages"]

/-- `CATEGORIES.SHISHA`. -/
def SHISHA_CATEGORIES : List String := ["shisha", "hookah", "tobacco"]

/-- The merged `{...orderItem, ...menuItem}` record; the menu item's fields
overwrite shared names (`price`). -/
structure CurrentItem where
  menuItemId : String
  quantity : Nat
  itemId : String
  name : String
  category : String
  price : Nat
  deriving DecidableEq, Repr

structure OrderWithItem where
  order : Order
  currentItem : CurrentItem
  deriving DecidableEq, Repr

def mergeItem (it : CartItem) (mi : MenuItem) : CurrentItem :=
  { menuItemId := it.menuItemId, quantity := it.quantity,
    itemId := mi.id, name := mi.name, category := mi.category, price := mi.price }

/-- Lookup in the `Map` built by `new Map(menuItems.map(item => [item.id,
item]))`: the last entry for an id wins. -/
def menuLookup (menuItems : List MenuItem) (id : String) : Option MenuItem :=
  menuItems.foldl (fun acc mi => if mi.id == id then some mi else acc) none

/-- The drinks bucket filled by the `orders.forEach` loop: per order item,
look the menu item up; push when its category is in `CATEGORIES.DRINKS`. -/
def drinksOf (orders : List Order) (menuItems : List MenuItem) :
    List OrderWithItem :=
  orders.flatMap (fun o => o.items.filterMap (fun it =>
    match menuLookup menuItems it.menuItemId with
    | some mi =>
      if DRINKS_CATEGORIES.contains mi.category then some ⟨o, mergeItem it mi⟩
      else none
    | none => none))

/-- The shisha bucket: the `else if` branch, reached only when the category
is not in `CATEGORIES.DRINKS`. -/
def shishaOf (orders : List Order) (menuItems : List MenuItem) :
    List OrderWithItem :=
  orders.flatMap (fun o => o.items.filterMap (fun it =>
    match menuLookup menuItems it.menuItemId with
    | some mi =>
      if DRINKS_CATEGORIES.contains mi.category then none
      else if SHISHA_CATEGORIES.contains mi.category then some ⟨o, mergeItem it mi⟩
      else none
    | none => none))

/-- The snapshot fingerprint `JSON.stringify(orders.map(o => ({id, status,
updatedAt})))`, modelled as the list of triples itself. -/
def ordersHash (orders : List Order) : List (String × OrderStatus × Nat) :=
  orders.map (fun o => (o.id, o.status, o.updatedAt))

structure BarState where
  isProcessing : Bool
  lastProcessedOrders : List (String × OrderStatus × Nat)
  drinkOrders : List OrderWithItem
  shishaOrders : List OrderWithItem
  deriving DecidableEq, Repr

/-- One settled run of `processOrdersWithMenuItems`: skip while a run is in
flight, skip when the fingerprint matches the last processed one, otherwise
recompute both buckets.  The `isProcessing` flag is set during the run and
reset by the 100 ms timeout, so the settled state has it `false`. -/
def processOrdersWithMenuItems (s : BarState) (orders : List Order)
    (menuItems : List MenuItem) : BarState :=
  if s.isProcessing then s
  else if ordersHash orders = s.lastProcessedOrders then s
  else
    { isProcessing := false
      lastProcessedOrders := ordersHash orders
      drinkOrders := drinksOf orders menuItems
      shishaOrders := shishaOf orders menuItems }

/-! ## Spec-side definition for the outstanding amount (claim C4)

Written from the spec's words: "outstanding amount per table sums
`payment.amount` (falling back to `totalAmount` when no explicit payment
record exists) over all not-`paid` orders for that table". -/

def specOutstanding (orders : List Order) (n : Nat) : Nat :=
  ((orders.filter (fun o => o.tableNumber == n && o.notPaid)).map
    Order.billAmount).sum

/-! ## Concrete snapshots used by counterexamples and witnesses -/

def scenarioTable : Table :=
  { id := "t3", number := 3, capacity := 4, location := "indoor" }

/-- The spec scenario's delivered+paid €20 order for table 3. -/
def scenarioPaidOrder : Order :=
  { id := "a", tableNumber := 3, items := [], totalAmount := 20,
    status := OrderStatus.delivered,
    payment := some { status := PaymentStatus.paid, amount := 20 },
    loyaltyDiscount := none, createdAt := 100, updatedAt := 100 }

/-- The spec scenario's pending €15 order (no payment record) for table 3. -/
def scenarioPendingOrder : Order :=
  { id := "b", tableNumber := 3, items := [], totalAmount := 15,
    status := OrderStatus.pending, payment := none,
    loyaltyDiscount := none, createdAt := 200, updatedAt := 200 }

def scenarioOrders : List Order := [scenarioPaidOrder, scenarioPendingOrder]

def tableOne : Table :=
  { id := "t1", number := 1, capacity := 2, location := "indoor" }

/-- A fully settled order whose status is `ready` (payment already `paid`). -/
def readyPaidOrder : Order :=
  { id := "r", tableNumber := 1, items := [], totalAmount := 10,
    status := OrderStatus.ready,
    payment := some { status := PaymentStatus.paid, amount := 10 },
    loyaltyDiscount := none, createdAt := 100, updatedAt := 100 }

/-- A delivered+paid order created at epoch-ms 1000000. -/
def recentPaidOrder : Order :=
  { id := "d", tableNumber := 1, items := [], totalAmount := 20,
    status := OrderStatus.delivered,
    payment := some { status := PaymentStatus.paid, amount := 20 },
    loyaltyDiscount := none, createdAt := 1000000, updatedAt := 1000000 }

/-- A paid pending order (payment settled up front). -/
def paidPendingOrder : Order :=
  { id := "pp", tableNumber := 1, items := [], totalAmount := 10,
    status := OrderStatus.pending,
    payment := some { status := PaymentStatus.paid, amount := 10 },
    loyaltyDiscount := none, createdAt := 100, updatedAt := 100 }

def seatedReservation : Reservation := { id := "rv", tableNumber := 1 }

def tableSeven : Table :=
  { id := "t7", number := 7, capacity := 4, location := "vip" }

/-- Delivered order with payment record `{status: unpaid, amount: 42}` but
`totalAmount` 50. -/
def unpaid42Order : Order :=
  { id := "u", tableNumber := 7, items := [], totalAmount := 50,
    status := OrderStatus.delivered,
    payment := some { status := PaymentStatus.unpaid, amount := 42 },
    loyaltyDiscount := none, createdAt := 100, updatedAt := 100 }

/-- A cancelled order, as shown in the "completed" tab. -/
def cancelledOrder : Order :=
  { id := "c9", tableNumber := 2, items := [], totalAmount := 30,
    status := OrderStatus.cancelled, payment := none, loyaltyDiscount := none,
    createdAt := 10, updatedAt := 20 }

/-- Admin state holding just the cancelled order, not busy. -/
def purgeState : AdminState :=
  { isUpdating := false, orders := [cancelledOrder],
    stats := computeStats [cancelledOrder], store := [cancelledOrder] }

/-- Admin state with an operation already in flight. -/
def busyState : AdminState :=
  { isUpdating := true, orders := [scenarioPendingOrder],
    stats := computeStats [scenarioPendingOrder],
    store := [scenarioPendingOrder] }

/-- Bar state that has already processed the snapshot
`[scenarioPendingOrder]`. -/
def barIdleState : BarState :=
  { isProcessing := false,
    lastProcessedOrders := ordersHash [scenarioPendingOrder],
    drinkOrders := [], shishaOrders := [] }

def colaMenuItem : MenuItem :=
  { id := "m1", name := "Cola", category := "drinks", price := 3 }

def colaItem : CartItem := { menuItemId := "m1", quantity := 1, price := 3 }

/-- A line item whose menu item id is absent from the catalog. -/
def ghostItem : CartItem := { menuItemId := "ghost", quantity := 2, price := 5 }

def mixedOrder : Order :=
  { id := "mx", tableNumber := 4, items := [colaItem, ghostItem],
    totalAmount := 13, status := OrderStatus.pending, payment := none,
    loyaltyDiscount := none, createdAt := 1, updatedAt := 1 }

def colaWithItem : OrderWithItem :=
  { order := mixedOrder, currentItem := mergeItem colaItem colaMenuItem }

/-! ## Helper lemmas -/

theorem Order.notPaid_eq (o : Order) : o.notPaid = !o.isPaid := by
  cases h : o.payment <;> simp [Order.notPaid, Order.isPaid, h, bne]

theorem statusOf_open_bill_iff (b a s : Bool) :
    statusOf b a s = TableStatusType.open_bill ↔ b = true := by
  revert b a s; decide

theorem statusOf_active_iff (b a s : Bool) :
    statusOf b a s = TableStatusType.active_order ↔ (b = false ∧ a = true) := by
  revert b a s; decide

theorem statusOf_seated_iff (b a s : Bool) :
    statusOf b a s = TableStatusType.seated ↔
      (b = false ∧ a = false ∧ s = true) := by
  revert b a s; decide

theorem foldl_add_eq_sum {α : Type} (f : α → Nat) (l : List α) (a : Nat) :
    l.foldl (fun s o => s + f o) a = a + (l.map f).sum := by
  induction l generalizing a with
  | nil => simp
  | cons x xs ih => simp [ih, Nat.add_assoc]

theorem latestOrder_mem : ∀ {l : List Order} {m : Order},
    latestOrder l = some m → m ∈ l := by
  intro l
  induction l with
  | nil => intro m h; simp [latestOrder] at h
  | cons o rest ih =>
    intro m h
    simp only [latestOrder] at h
    cases hr : latestOrder rest with
    | none =>
      rw [hr] at h
      cases h
      exact List.mem_cons_self _ _
    | some k =>
      rw [hr] at h
      by_cases hc : k.createdAt > o.createdAt
      · simp only [hc, if_pos] at h
        cases h
        exact List.mem_cons_of_mem _ (ih hr)
      · simp only [hc, if_neg, not_false_eq_true] at h
        cases h
        exact List.mem_cons_self _ _

theorem latestOrder_of_ne_nil {l : List Order} (h : l ≠ []) :
    ∃ m, latestOrder l = some m := by
  cases l with
  | nil => exact absurd rfl h
  | cons o rest =>
    simp only [latestOrder]
    cases latestOrder rest with
    | none => exact ⟨o, rfl⟩
    | some k =>
      by_cases hc : k.createdAt > o.createdAt
      · exact ⟨k, by simp [hc]⟩
      · exact ⟨o, by simp [hc]⟩

theorem length_filter_not {α : Type} (p : α → Bool) (l : List α) :
    (l.filter (fun a => !(p a))).length = l.length - (l.filter p).length := by
  induction l with
  | nil => simp
  | cons x xs ih =>
    have hle := List.length_filter_le p xs
    by_cases hx : p x = true <;>
      simp only [List.filter_cons, hx, Bool.not_true, Bool.not_false,
        if_true, if_false, List.length_cons, Bool.false_eq_true, Bool.true_eq_false] <;>
      omega

theorem length_filter_le_of_imp {α : Type} {p q : α → Bool} :
    ∀ (l : List α), (∀ a ∈ l, p a = true → q a = true) →
      (l.filter p).length ≤ (l.filter q).length := by
  intro l
  induction l with
  | nil => intro _; simp
  | cons x xs ih =>
    intro h
    have hxs : ∀ a ∈ xs, p a = true → q a = true :=
      fun a ha => h a (List.mem_cons_of_mem _ ha)
    by_cases hx : p x = true
    · have hq := h x (List.mem_cons_self _ _) hx
      simp only [List.filter_cons, hx, hq, if_true, List.length_cons]
      exact Nat.succ_le_succ (ih hxs)
    · have hxs' := ih hxs
      have hlen := List.length_filter_le q (x :: xs)
      by_cases hqx : q x = true <;>
        simp only [List.filter_cons, hx, hqx, if_true, if_false,
          List.length_cons, Bool.false_eq_true, Bool.true_eq_false] <;>
        omega

theorem anyNotPaid_eq_false_of_all_paid (orders : List Order) (table : Table)
    (hpay : ∀ o ∈ orders, o.tableNumber = table.number → o.isPaid = true) :
    (tableOrdersFor orders table.number).any Order.notPaid = false := by
  rw [List.any_eq_false]
  intro o hmem
  have hf := List.mem_filter.mp hmem
  have htn : o.tableNumber = table.number := by
    have h2 := hf.2
    simpa using h2
  have hpaid := hpay o hf.1 htn
  simp [Order.notPaid_eq, hpaid]

theorem simpleTableStatus_isOpenBill_flags (now : Nat) (orders : List Order)
    (table : Table)
    (h : (simpleTableStatus now orders table).isOpenBill = true) :
    (simpleTableStatus now orders table).hasActiveOrder = false ∧
      (simpleTableStatus now orders table).isSeated = false := by
  simp only [simpleTableStatus] at h ⊢
  rw [h]
  simp

theorem simpleTableStatus_statusType (now : Nat) (orders : List Order)
    (table : Table) :
    (simpleTableStatus now orders table).statusType =
      statusOf (simpleTableStatus now orders table).isOpenBill
        (simpleTableStatus now orders table).hasActiveOrder
        (simpleTableStatus now orders table).isSeated := rfl

theorem processTableStatus_statusType (orders : List Order)
    (reservations : List Reservation) (table : Table) :
    (processTableStatus orders reservations table).statusType =
      statusOf (processTableStatus orders reservations table).isOpenBill
        (processTableStatus orders reservations table).hasActiveOrder
        (processTableStatus orders reservations table).isSeated := rfl

theorem processTableStatus_isOpenBill (orders : List Order)
    (reservations : List Reservation) (table : Table) :
    (processTableStatus orders reservations table).isOpenBill =
      (tableOrdersFor orders table.number).any Order.notPaid := rfl

theorem processTableStatus_hasActiveOrder (orders : List Order)
    (reservations : List Reservation) (table : Table) :
    (processTableStatus orders reservations table).hasActiveOrder =
      (tableOrdersFor orders table.number).any (fun o =>
        o.status != OrderStatus.cancelled &&
          o.status != OrderStatus.delivered) := rfl

theorem processTableStatus_isSeated (orders : List Order)
    (reservations : List Reservation) (table : Table) :
    (processTableStatus orders reservations table).isSeated =
      reservations.any (fun r => r.tableNumber == table.number) := rfl

theorem processTableStatus_orderAmount (orders : List Order)
    (reservations : List Reservation) (table : Table) :
    (processTableStatus orders reservations table).orderAmount =
      (if 0 < ((tableOrdersFor orders table.number).filter Order.notPaid).foldl
          (fun s o => s + o.billAmount) 0 then
        some (((tableOrdersFor orders table.number).filter Order.notPaid).foldl
          (fun s o => s + o.billAmount) 0)
      else none) := rfl

theorem simpleTableStatus_isOpenBill (now : Nat) (orders : List Order)
    (table : Table) :
    (simpleTableStatus now orders table).isOpenBill =
      (match latestOrder (simpleTableOrders orders table.number) with
        | some o => o.status == OrderStatus.delivered && paymentUnpaidOrPartly o
        | none => false) := rfl

theorem simpleTableStatus_hasActiveOrder (now : Nat) (orders : List Order)
    (table : Table) :
    (simpleTableStatus now orders table).hasActiveOrder =
      ((latestOrder (simpleTableOrders orders table.number)).isSome &&
        !(simpleTableStatus now orders table).isOpenBill) := rfl

theorem simpleTableStatus_isSeated (now : Nat) (orders : List Order)
    (table : Table) :
    (simpleTableStatus now orders table).isSeated =
      (!(simpleTableStatus now orders table).hasActiveOrder &&
        !(simpleTableStatus now orders table).isOpenBill &&
        !(orders.filter (fun o =>
          o.tableNumber == table.number && o.status == OrderStatus.delivered &&
            o.isPaid && now - o.createdAt < 7200000)).isEmpty) := rfl

theorem simpleTableStatus_orderAmount (now : Nat) (orders : List Order)
    (table : Table) :
    (simpleTableStatus now orders table).orderAmount =
      (latestOrder (simpleTableOrders orders table.number)).map
        Order.totalAmount := rfl

/-! ## Claim theorems -/

/-- C1 (amended): In the fuller variant (`processTableData`), a table with
at least one order whose payment status is not `paid` (an order with no
payment record counts as not paid) is classified `open_bill`, regardless of
the other orders for the table; in particular, on the scenario with one
delivered+paid €20 order and one pending unpaid €15 order, the table is
classified `open_bill` with outstanding amount €15.  The simpler variant
(`calculateTableStatuses`) inspects only the most recent unsettled order
and classifies that scenario `active_order` instead (see the
counterexample). -/
theorem processTableStatus_open_bill_of_unpaid
    (orders : List Order) (reservations : List Reservation) (table : Table)
    (h : ∃ o ∈ orders, o.tableNumber = table.number ∧ o.notPaid = true) :
    (processTableStatus orders reservations table).statusType =
        TableStatusType.open_bill ∧
    (processTableStatus scenarioOrders [] scenarioTable).statusType =
        TableStatusType.open_bill ∧
    (processTableStatus scenarioOrders [] scenarioTable).orderAmount =
        some 15 := by
  refine ⟨?_, by decide, by decide⟩
  obtain ⟨o, ho, hn, hp⟩ := h
  have hmem : o ∈ tableOrdersFor orders table.number :=
    List.mem_filter.mpr ⟨ho, by simp [hn]⟩
  have hAny : (tableOrdersFor orders table.number).any Order.notPaid = true :=
    List.any_eq_true.mpr ⟨o, hmem, hp⟩
  rw [processTableStatus_statusType, statusOf_open_bill_iff,
    processTableStatus_isOpenBill, hAny]

/-- C1 witness: on the scenario snapshot an unpaid order is present and the
fuller variant classifies table 3 `open_bill`. -/
theorem processTableStatus_open_bill_of_unpaid_witness :
    (∃ o ∈ scenarioOrders, o.tableNumber = scenarioTable.number ∧
      o.notPaid = true) ∧
    (processTableStatus scenarioOrders [] scenarioTable).statusType =
      TableStatusType.open_bill :=
  ⟨⟨scenarioPendingOrder, by decide, by decide, by decide⟩,
    (processTableStatus_open_bill_of_unpaid scenarioOrders [] scenarioTable
      ⟨scenarioPendingOrder, by decide, by decide, by decide⟩).1⟩

/-- C1 counterexample: the simpler variant classifies the scenario table
(one delivered+paid order, one pending unpaid order) `active_order`, not
`open_bill`, although an unpaid order for the table is present. -/
theorem calculateTableStatuses_scenario_not_open_bill :
    (calculateTableStatuses 300 [scenarioTable] scenarioOrders).map
        TableStatus.statusType = [TableStatusType.active_order] ∧
    scenarioPendingOrder ∈ scenarioOrders ∧
    scenarioPendingOrder.tableNumber = scenarioTable.number ∧
    scenarioPendingOrder.notPaid = true := by decide

/-- C2 (amended): If every order for table T is paid and some order for T
has status in {pending, confirmed, preparing, ready}, the fuller variant
classifies T `active_order`; the simpler variant does the same for status
in {pending, confirmed, preparing}, but deliberately does not count a
`ready` order as active (see the counterexample). -/
theorem active_order_of_all_paid :
    (∀ (orders : List Order) (reservations : List Reservation) (table : Table),
      (∀ o ∈ orders, o.tableNumber = table.number → o.isPaid = true) →
      (∃ o ∈ orders, o.tableNumber = table.number ∧
        (o.status = OrderStatus.pending ∨ o.status = OrderStatus.confirmed ∨
          o.status = OrderStatus.preparing ∨ o.status = OrderStatus.ready)) →
      (processTableStatus orders reservations table).statusType =
        TableStatusType.active_order) ∧
    (∀ (now : Nat) (orders : List Order) (table : Table),
      (∀ o ∈ orders, o.tableNumber = table.number → o.isPaid = true) →
      (∃ o ∈ orders, o.tableNumber = table.number ∧
        (o.status = OrderStatus.pending ∨ o.status = OrderStatus.confirmed ∨
          o.status = OrderStatus.preparing)) →
      (simpleTableStatus now orders table).statusType =
        TableStatusType.active_order) := by
  constructor
  · intro orders reservations table hpay hex
    obtain ⟨w, hw, hwn, hwst⟩ := hex
    have hOpen := anyNotPaid_eq_false_of_all_paid orders table hpay
    have hw' : w ∈ tableOrdersFor orders table.number :=
      List.mem_filter.mpr ⟨hw, by simp [hwn]⟩
    have hAct : (tableOrdersFor orders table.number).any (fun o =>
        o.status != OrderStatus.cancelled &&
          o.status != OrderStatus.delivered) = true := by
      refine List.any_eq_true.mpr ⟨w, hw', ?_⟩
      rcases hwst with h|h|h|h <;> simp [h]
    rw [processTableStatus_statusType, statusOf_active_iff,
      processTableStatus_isOpenBill, processTableStatus_hasActiveOrder]
    exact ⟨hOpen, hAct⟩
  · intro now orders table hpay hex
    obtain ⟨w, hw, hwn, hwst⟩ := hex
    have hwf : w ∈ simpleTableOrders orders table.number := by
      refine List.mem_filter.mpr ⟨hw, ?_⟩
      have hdp : deliveredAndPaid w = false := by
        rcases hwst with h|h|h <;> simp [deliveredAndPaid, h]
      rcases hwst with h|h|h <;> simp [hdp, h, hwn]
    obtain ⟨m, hm⟩ := latestOrder_of_ne_nil (List.ne_nil_of_mem hwf)
    have hmmem := latestOrder_mem hm
    have hmf := List.mem_filter.mp hmmem
    have hmtn : m.tableNumber = table.number := by
      have h2 := hmf.2
      simp only [Bool.and_eq_true, beq_iff_eq] at h2
      exact h2.1.1
    have hmnd : m.status ≠ OrderStatus.delivered := by
      intro hd
      have hpaid : m.isPaid = true := hpay m hmf.1 hmtn
      have hdp : deliveredAndPaid m = true := by
        simp [deliveredAndPaid, hd, hpaid]
      have h2 := hmf.2
      simp only [Bool.and_eq_true] at h2
      rw [hdp] at h2
      simp at h2
    have hOpenB : (simpleTableStatus now orders table).isOpenBill = false := by
      rw [simpleTableStatus_isOpenBill, hm]
      simp [hmnd]
    have hAct : (simpleTableStatus now orders table).hasActiveOrder = true := by
      rw [simpleTableStatus_hasActiveOrder, hOpenB, hm]
      simp
    rw [simpleTableStatus_statusType, statusOf_active_iff]
    exact ⟨hOpenB, hAct⟩

/-- C2 witness: a single paid pending order makes table 1 `active_order` in
both variants. -/
theorem active_order_of_all_paid_witness :
    (processTableStatus [paidPendingOrder] [] tableOne).statusType =
        TableStatusType.active_order ∧
    (simpleTableStatus 0 [paidPendingOrder] tableOne).statusType =
        TableStatusType.active_order :=
  ⟨active_order_of_all_paid.1 [paidPendingOrder] [] tableOne (by decide)
      ⟨paidPendingOrder, by decide, by decide, Or.inl (by decide)⟩,
    active_order_of_all_paid.2 0 [paidPendingOrder] tableOne (by decide)
      ⟨paidPendingOrder, by decide, by decide, Or.inl (by decide)⟩⟩

/-- C2 counterexample: a table whose only order is `ready` and fully paid
is classified `available`, not `active_order`, by the simpler variant. -/
theorem simpleTableStatus_ready_paid_not_active :
    (simpleTableStatus 1000 [readyPaidOrder] tableOne).statusType =
        TableStatusType.available ∧
    readyPaidOrder.tableNumber = tableOne.number ∧
    readyPaidOrder.status = OrderStatus.ready ∧
    readyPaidOrder.isPaid = true := by decide

/-- C3 (amended): For a table with no active order and no open bill, the
fuller variant classifies it `seated` exactly when an associated (seated,
current-day) reservation exists — it has no recency heuristic; the simpler
variant classifies it `seated` exactly when some delivered+paid order for
the table was created within the trailing 2-hour window — it never looks at
reservations.  Neither variant checks both conditions (see the
counterexample). -/
theorem seated_iff_characterization :
    (∀ (orders : List Order) (reservations : List Reservation) (table : Table),
      (processTableStatus orders reservations table).hasActiveOrder = false →
      (processTableStatus orders reservations table).isOpenBill = false →
      ((processTableStatus orders reservations table).statusType =
          TableStatusType.seated ↔
        ∃ r ∈ reservations, r.tableNumber = table.number)) ∧
    (∀ (now : Nat) (orders : List Order) (table : Table),
      (simpleTableStatus now orders table).hasActiveOrder = false →
      (simpleTableStatus now orders table).isOpenBill = false →
      ((simpleTableStatus now orders table).statusType =
          TableStatusType.seated ↔
        ∃ o ∈ orders, o.tableNumber = table.number ∧
          o.status = OrderStatus.delivered ∧ o.isPaid = true ∧
          now - o.createdAt < 7200000)) := by
  constructor
  · intro orders reservations table hA hB
    rw [processTableStatus_statusType, statusOf_seated_iff, hA, hB,
      processTableStatus_isSeated]
    simp [List.any_eq_true]
  · intro now orders table hA hB
    rw [simpleTableStatus_statusType, statusOf_seated_iff,
      simpleTableStatus_isSeated, hA, hB]
    simp [List.isEmpty_eq_false_iff_exists_mem, List.mem_filter]

/-- C3 witness: a seated reservation makes an idle table `seated` in the
fuller variant, and a delivered+paid order 1 second old makes an idle table
`seated` in the simpler variant. -/
theorem seated_iff_characterization_witness :
    (processTableStatus [] [seatedReservation] tableOne).statusType =
      TableStatusType.seated ∧
    (simpleTableStatus 1001000 [recentPaidOrder] tableOne).statusType =
      TableStatusType.seated := by
  refine ⟨?_, ?_⟩
  · exact (seated_iff_characterization.1 [] [seatedReservation] tableOne
      (by decide) (by decide)).mpr ⟨seatedReservation, by decide, by decide⟩
  · exact (seated_iff_characterization.2 1001000 [recentPaidOrder] tableOne
      (by decide) (by decide)).mpr
      ⟨recentPaidOrder, by decide, by decide, by decide, by decide, by decide⟩

/-- C3 counterexample: the fuller variant leaves a table `available` even
though it has a delivered+paid order within the trailing 2-hour window of
the evaluation time 1001000 — the recency disjunct of the claim does not
hold for it. -/
theorem processTableStatus_recent_paid_not_seated :
    (processTableStatus [recentPaidOrder] [] tableOne).statusType =
        TableStatusType.available ∧
    recentPaidOrder.tableNumber = tableOne.number ∧
    recentPaidOrder.status = OrderStatus.delivered ∧
    recentPaidOrder.isPaid = true ∧
    1001000 - recentPaidOrder.createdAt < 7200000 := by decide

/-- C4 (amended): In the fuller variant the outstanding amount reported for
a table equals the sum over all its not-`paid` orders of `payment.amount`,
falling back to `totalAmount` when no payment record exists (reported as
`none` exactly when that sum is zero); in particular a delivered order with
payment {status: unpaid, amount: 42} yields outstanding amount 42.  The
simpler variant instead reports the most recent unsettled order's
`totalAmount` (see the counterexample). -/
theorem orderAmount_eq_specOutstanding :
    (∀ (orders : List Order) (reservations : List Reservation) (table : Table),
      ((processTableStatus orders reservations table).orderAmount).getD 0 =
        specOutstanding orders table.number) ∧
    (processTableStatus [unpaid42Order] [] tableSeven).statusType =
        TableStatusType.open_bill ∧
    (processTableStatus [unpaid42Order] [] tableSeven).orderAmount =
        some 42 := by
  refine ⟨?_, by decide, by decide⟩
  intro orders reservations table
  rw [processTableStatus_orderAmount]
  have hfil : (tableOrdersFor orders table.number).filter Order.notPaid =
      orders.filter (fun o => o.tableNumber == table.number && o.notPaid) := by
    rw [tableOrdersFor, List.filter_filter]
    exact List.filter_congr (fun a _ => by rw [Bool.and_comm])
  have hsum : ((tableOrdersFor orders table.number).filter Order.notPaid).foldl
      (fun s o => s + o.billAmount) 0 = specOutstanding orders table.number := by
    rw [hfil, specOutstanding, foldl_add_eq_sum]
    simp
  rw [hsum]
  by_cases h : 0 < specOutstanding orders table.number
  · simp [h]
  · simp [h]
    omega

/-- C4 counterexample: the simpler variant flags the table `open_bill` but
reports the order's `totalAmount` 50, not the payment record's amount 42,
as the outstanding amount. -/
theorem simpleTableStatus_unpaid42_reports_total :
    (simpleTableStatus 1000 [unpaid42Order] tableSeven).statusType =
        TableStatusType.open_bill ∧
    unpaid42Order.payment =
      some { status := PaymentStatus.unpaid, amount := 42 } ∧
    (simpleTableStatus 1000 [unpaid42Order] tableSeven).orderAmount =
      some 50 ∧
    (simpleTableStatus 1000 [unpaid42Order] tableSeven).orderAmount ≠
      some 42 := by decide

/-- C5 (amended): The fuller variant is a pure function of the (tables,
orders, reservations) snapshot: value-identical snapshots always yield
identical per-table statuses and aggregate stats.  The simpler variant
additionally depends on the wall clock through its trailing 2-hour window,
so the same snapshot evaluated at two different times can yield different
statuses (second conjunct and counterexample). -/
theorem processTableData_pure
    (t₁ t₂ : List Table) (o₁ o₂ : List Order) (r₁ r₂ : List Reservation)
    (ht : t₁ = t₂) (ho : o₁ = o₂) (hr : r₁ = r₂) :
    processTableData t₁ o₁ r₁ = processTableData t₂ o₂ r₂ ∧
    calculateTableStatuses 1001000 [tableOne] [recentPaidOrder] ≠
      calculateTableStatuses 9000000 [tableOne] [recentPaidOrder] := by
  refine ⟨?_, by decide⟩
  rw [ht, ho, hr]

/-- C5 witness: the purity part applied to the scenario snapshot. -/
theorem processTableData_pure_witness :
    processTableData [scenarioTable] scenarioOrders [] =
      processTableData [scenarioTable] scenarioOrders [] :=
  (processTableData_pure [scenarioTable] [scenarioTable] scenarioOrders
    scenarioOrders [] [] rfl rfl rfl).1

/-- C5 counterexample: the simpler variant maps the same snapshot to
`seated` at time 1001000 but to `available` at time 9000000 — the
derivation depends on the clock, not only on the snapshot. -/
theorem calculateTableStatuses_clock_dependent :
    (calculateTableStatuses 1001000 [tableOne] [recentPaidOrder]).map
        TableStatus.statusType = [TableStatusType.seated] ∧
    (calculateTableStatuses 9000000 [tableOne] [recentPaidOrder]).map
        TableStatus.statusType = [TableStatusType.available] := by decide

/-- C6: While an operation is already in flight (`isUpdating` true), a
status-transition request is rejected before any store call — the order
list, stats, and backing store are left unchanged and a user-visible error
is raised — and the same busy flag gates loyalty verification and deletion
(delete performs no store call and leaves the state unchanged; when the
order exists, is deletable, and the first confirmation was given, the busy
check raises the error). -/
theorem busy_flag_rejects_second_operation
    (s : AdminState) (orderId : String) (newStatus : OrderStatus)
    (confirmFirst confirmSecond storeOk : Bool)
    (h : s.isUpdating = true) :
    updateOrderStatus s orderId newStatus storeOk =
      { state := s, storeCalled := false, errorShown := true } ∧
    verifyLoyaltyDiscount s orderId storeOk =
      { state := s, storeCalled := false, errorShown := true } ∧
    (deleteOrder s orderId confirmFirst confirmSecond storeOk).state = s ∧
    (deleteOrder s orderId confirmFirst confirmSecond storeOk).storeCalled =
      false ∧
    (∀ o, s.orders.find? (fun x => x.id == orderId) = some o →
      canDeleteOrder o = true → confirmFirst = true →
      (deleteOrder s orderId confirmFirst confirmSecond storeOk).errorShown =
        true) := by
  refine ⟨by simp [updateOrderStatus, h], by simp [verifyLoyaltyDiscount, h],
    ?_, ?_, ?_⟩
  · cases hf : s.orders.find? (fun x => x.id == orderId) with
    | none => simp [deleteOrder, hf]
    | some o =>
      cases hd : canDeleteOrder o <;> cases hc : confirmFirst <;>
        simp [deleteOrder, hf, hd, hc, h]
  · cases hf : s.orders.find? (fun x => x.id == orderId) with
    | none => simp [deleteOrder, hf]
    | some o =>
      cases hd : canDeleteOrder o <;> cases hc : confirmFirst <;>
        simp [deleteOrder, hf, hd, hc, h]
  · intro o hf hd hc
    simp [deleteOrder, hf, hd, hc, h]

/-- C6 witness: in the concrete busy state the transition is rejected with
no store call and an error, and delete is likewise gated. -/
theorem busy_flag_rejects_second_operation_witness :
    busyState.isUpdating = true ∧
    updateOrderStatus busyState "b" OrderStatus.confirmed true =
      { state := busyState, storeCalled := false, errorShown := true } ∧
    (deleteOrder busyState "b" true true true).storeCalled = false ∧
    (deleteOrder busyState "b" true true true).errorShown = true := by
  have h := busy_flag_rejects_second_operation busyState "b"
    OrderStatus.confirmed true true true rfl
  exact ⟨rfl, h.1, h.2.2.2.1,
    h.2.2.2.2 scenarioPendingOrder (by decide) (by decide) rfl⟩

/-- C7 (amended): For every order present in the list whose status is not
`pending`, invoking the delete operation performs no store call, leaves the
state (order list, stats, store) unchanged, and raises a user-visible
error; this includes `cancelled` orders — the completed-view purge button
invokes this same operation, whose guard rejects every non-pending order
(see the counterexample). -/
theorem deleteOrder_rejects_non_pending
    (s : AdminState) (orderId : String) (o : Order)
    (confirmFirst confirmSecond storeOk : Bool)
    (hfind : s.orders.find? (fun x => x.id == orderId) = some o)
    (hst : o.status ≠ OrderStatus.pending) :
    deleteOrder s orderId confirmFirst confirmSecond storeOk =
      { state := s, storeCalled := false, errorShown := true } := by
  have hd : canDeleteOrder o = false := by
    simp [canDeleteOrder, hst]
  simp [deleteOrder, hfind, hd]

/-- C7 witness: the cancelled order in the purge state is rejected. -/
theorem deleteOrder_rejects_non_pending_witness :
    purgeState.orders.find? (fun x => x.id == "c9") = some cancelledOrder ∧
    deleteOrder purgeState "c9" true true true =
      { state := purgeState, storeCalled := false, errorShown := true } :=
  ⟨by decide, deleteOrder_rejects_non_pending purgeState "c9" cancelledOrder
    true true true (by decide) (by decide)⟩

/-- C7 counterexample: the "purge a cancelled order from the completed
view" path calls the same delete operation; on a cancelled order it never
reaches the store and raises the error instead, so the claimed exception
does not exist in the code. -/
theorem deleteOrder_cancelled_purge_rejected :
    cancelledOrder.status = OrderStatus.cancelled ∧
    (deleteOrder purgeState "c9" true true true).storeCalled = false ∧
    (deleteOrder purgeState "c9" true true true).state = purgeState ∧
    (deleteOrder purgeState "c9" true true true).errorShown = true := by
  decide

/-- C8: When `processOrdersWithMenuItems` receives a snapshot whose
per-record fingerprint (id, status, updatedAt of every order) equals the
last processed one, it performs no recomputation: the state, and with it
the derived drink/shisha lists, is unchanged; conversely any state change
implies the fingerprint differed. -/
theorem processOrders_hash_guard
    (s : BarState) (orders : List Order) (menuItems : List MenuItem) :
    (ordersHash orders = s.lastProcessedOrders →
      processOrdersWithMenuItems s orders menuItems = s) ∧
    (processOrdersWithMenuItems s orders menuItems ≠ s →
      ordersHash orders ≠ s.lastProcessedOrders) := by
  have hskip : ordersHash orders = s.lastProcessedOrders →
      processOrdersWithMenuItems s orders menuItems = s := by
    intro h
    cases hp : s.isProcessing <;> simp [processOrdersWithMenuItems, hp, h]
  exact ⟨hskip, fun hne h => absurd (hskip h) hne⟩

/-- C8 witness: redelivering the already-processed snapshot leaves the bar
state unchanged. -/
theorem processOrders_hash_guard_witness :
    ordersHash [scenarioPendingOrder] = barIdleState.lastProcessedOrders ∧
    processOrdersWithMenuItems barIdleState [scenarioPendingOrder] [] =
      barIdleState :=
  ⟨rfl, (processOrders_hash_guard barIdleState [scenarioPendingOrder] []).1 rfl⟩

/-- C9: In the simpler grid variant, `available` counts exactly the tables
with neither `hasActiveOrder` nor `isSeated`, every `open_bill` table has
both flags false — so open-bill tables are counted in `available`, not
`occupied` — and consequently `openBills ≤ available`. -/
theorem calculateStats_open_bill_counts_available
    (now : Nat) (tables : List Table) (orders : List Order) :
    (calculateStats (calculateTableStatuses now tables orders)).available =
      ((calculateTableStatuses now tables orders).filter
        (fun s => !(s.hasActiveOrder || s.isSeated))).length ∧
    (∀ s ∈ calculateTableStatuses now tables orders,
      s.statusType = TableStatusType.open_bill →
        s.hasActiveOrder = false ∧ s.isSeated = false) ∧
    (calculateStats (calculateTableStatuses now tables orders)).openBills ≤
      (calculateStats (calculateTableStatuses now tables orders)).available := by
  have hmemflags : ∀ s ∈ calculateTableStatuses now tables orders,
      s.isOpenBill = true → s.hasActiveOrder = false ∧ s.isSeated = false := by
    intro s hs hob
    obtain ⟨t, ht, rfl⟩ := List.mem_map.mp hs
    exact simpleTableStatus_isOpenBill_flags now orders t hob
  have havail :
      (calculateStats (calculateTableStatuses now tables orders)).available =
      ((calculateTableStatuses now tables orders).filter
        (fun s => !(s.hasActiveOrder || s.isSeated))).length := by
    simp only [calculateStats]
    exact (length_filter_not _ _).symm
  refine ⟨havail, ?_, ?_⟩
  · intro s hs hst
    obtain ⟨t, ht, rfl⟩ := List.mem_map.mp hs
    have hob : (simpleTableStatus now orders t).isOpenBill = true := by
      rw [simpleTableStatus_statusType, statusOf_open_bill_iff] at hst
      exact hst
    exact simpleTableStatus_isOpenBill_flags now orders t hob
  · rw [havail]
    show ((calculateTableStatuses now tables orders).filter
        (fun s => s.isOpenBill)).length ≤ _
    apply length_filter_le_of_imp
    intro s hs hob
    have hf := hmemflags s hs hob
    simp [hf.1, hf.2]

/-- C9 witness: a single open-bill table has both flags false and is
counted available. -/
theorem calculateStats_open_bill_counts_available_witness :
    (simpleTableStatus 1000 [unpaid42Order] tableSeven).statusType =
      TableStatusType.open_bill ∧
    (simpleTableStatus 1000 [unpaid42Order] tableSeven).hasActiveOrder =
      false ∧
    (simpleTableStatus 1000 [unpaid42Order] tableSeven).isSeated = false ∧
    (calculateStats (calculateTableStatuses 1000 [tableSeven]
        [unpaid42Order])).openBills ≤
      (calculateStats (calculateTableStatuses 1000 [tableSeven]
        [unpaid42Order])).available := by
  have h := calculateStats_open_bill_counts_available 1000 [tableSeven]
    [unpaid42Order]
  have hmem : simpleTableStatus 1000 [unpaid42Order] tableSeven ∈
      calculateTableStatuses 1000 [tableSeven] [unpaid42Order] := by
    simp [calculateTableStatuses]
  have hflags := h.2.1 _ hmem (by decide)
  exact ⟨by decide, hflags.1, hflags.2, h.2.2⟩

/-- C10: An order line item whose `menuItemId` is not in the menu catalog,
or whose menu category lies outside both the drinks set {drinks, beverages}
and the shisha set {shisha, hookah, tobacco}, produces no entry in either
the drinks list or the shisha list. -/
theorem categorization_excludes_unknown_items
    (orders : List Order) (menuItems : List MenuItem) (mid : String)
    (hbad : ∀ mi, menuLookup menuItems mid = some mi →
      (DRINKS_CATEGORIES.contains mi.category ||
        SHISHA_CATEGORIES.contains mi.category) = false) :
    ∀ ow ∈ drinksOf orders menuItems ++ shishaOf orders menuItems,
      ow.currentItem.menuItemId ≠ mid := by
  intro ow how hmid
  rcases List.mem_append.mp how with hd | hsh
  · obtain ⟨o, ho, hin⟩ := List.mem_flatMap.mp hd
    obtain ⟨it, hit, heq⟩ := List.mem_filterMap.mp hin
    cases hl : menuLookup menuItems it.menuItemId with
    | none =>
      simp only [hl] at heq
      exact Option.noConfusion heq
    | some mi =>
      simp only [hl] at heq
      cases hc : DRINKS_CATEGORIES.contains mi.category with
      | false =>
        simp only [hc, Bool.false_eq_true, if_false] at heq
        exact Option.noConfusion heq
      | true =>
        simp only [hc, if_true] at heq
        injection heq with heq
        subst heq
        simp only [mergeItem] at hmid
        rw [hmid] at hl
        have hb := hbad mi hl
        rw [hc] at hb
        simp at hb
  · obtain ⟨o, ho, hin⟩ := List.mem_flatMap.mp hsh
    obtain ⟨it, hit, heq⟩ := List.mem_filterMap.mp hin
    cases hl : menuLookup menuItems it.menuItemId with
    | none =>
      simp only [hl] at heq
      exact Option.noConfusion heq
    | some mi =>
      simp only [hl] at heq
      cases hc : DRINKS_CATEGORIES.contains mi.category with
      | true =>
        simp only [hc, if_true] at heq
        exact Option.noConfusion heq
      | false =>
        simp only [hc, Bool.false_eq_true, if_false] at heq
        cases hs : SHISHA_CATEGORIES.contains mi.category with
        | false =>
          simp only [hs, Bool.false_eq_true, if_false] at heq
          exact Option.noConfusion heq
        | true =>
          simp only [hs, if_true] at heq
          injection heq with heq
          subst heq
          simp only [mergeItem] at hmid
          rw [hmid] at hl
          have hb := hbad mi hl
          rw [hc, hs] at hb
          simp at hb

/-- C10 witness: with catalog {Cola : drinks} and an order holding a Cola
item plus an unknown "ghost" item, the produced drinks entry is the Cola
one; the theorem applied to the unknown id shows no entry carries it. -/
theorem categorization_excludes_unknown_items_witness :
    colaWithItem ∈ drinksOf [mixedOrder] [colaMenuItem] ++
      shishaOf [mixedOrder] [colaMenuItem] ∧
    colaWithItem.currentItem.menuItemId ≠ "ghost" := by
  have hmem : colaWithItem ∈ drinksOf [mixedOrder] [colaMenuItem] ++
      shishaOf [mixedOrder] [colaMenuItem] := by decide
  refine ⟨hmem, ?_⟩
  refine categorization_excludes_unknown_items [mixedOrder] [colaMenuItem]
    "ghost" ?_ colaWithItem hmem
  intro mi hl
  have hnone : menuLookup [colaMenuItem] "ghost" = none := by decide
  rw [hnone] at hl
  exact Option.noConfusion hl

end Royal
